import Mathlib

/-!
Shallow embedding of the solid-mcp server (src/src/index.ts).

The repository's `index.ts` holds two concatenated drafts of the same
`SolidMCPServer` class.  Both drafts share an identical tool dispatcher
(the `CallToolRequestSchema` handler with the four tools `read_file`,
`write_file`, `list_directory`, `calculate`); the second draft's `run()`
additionally opens a local HTTP listener on port 2233 with three
substring-matched routes (`callback`, `script`, `start`).

External effects (the Solid SDK's `session.login`, the profile dataset
fetch, the filesystem, the JavaScript engine invoked via `new Function`)
are modelled explicitly: the filesystem as a finite path map, network
calls as oracles carried in the world state, and the arithmetic
evaluator as an expression interpreter modelled from the spec.
-/

namespace SolidMCP

/-! ## JavaScript-style numbers

Modelled from the spec: the `calculate` tool hands the whitelisted
expression to a generic dynamic-code evaluator (`new Function`), i.e. the
JavaScript engine, which is not code of this repository.  The spec says
the result is "the standard arithmetic evaluation" and that a division
producing a non-finite value "propagates as whatever the evaluator
returns, e.g. `Infinity`".  We model the evaluator's number domain as
exact rationals extended with the two infinities and NaN, with
IEEE-style propagation rules for the non-finite values. -/

inductive JSNum where
  | num (q : Rat)
  | inf
  | negInf
  | nan
deriving DecidableEq, Repr

def JSNum.isFinite : JSNum → Bool
  | .num _ => true
  | _ => false

def JSNum.neg : JSNum → JSNum
  | .num a => .num (-a)
  | .inf => .negInf
  | .negInf => .inf
  | .nan => .nan

def JSNum.add : JSNum → JSNum → JSNum
  | .nan, _ => .nan
  | _, .nan => .nan
  | .num a, .num b => .num (a + b)
  | .num _, .inf => .inf
  | .inf, .num _ => .inf
  | .inf, .inf => .inf
  | .inf, .negInf => .nan
  | .negInf, .inf => .nan
  | .negInf, .negInf => .negInf
  | .num _, .negInf => .negInf
  | .negInf, .num _ => .negInf

def JSNum.sub (a b : JSNum) : JSNum := a.add b.neg

def JSNum.mul : JSNum → JSNum → JSNum
  | .nan, _ => .nan
  | _, .nan => .nan
  | .num a, .num b => .num (a * b)
  | .num a, .inf => if a = 0 then .nan else if 0 < a then .inf else .negInf
  | .inf, .num a => if a = 0 then .nan else if 0 < a then .inf else .negInf
  | .num a, .negInf => if a = 0 then .nan else if 0 < a then .negInf else .inf
  | .negInf, .num a => if a = 0 then .nan else if 0 < a then .negInf else .inf
  | .inf, .inf => .inf
  | .inf, .negInf => .negInf
  | .negInf, .inf => .negInf
  | .negInf, .negInf => .inf

def JSNum.div : JSNum → JSNum → JSNum
  | .nan, _ => .nan
  | _, .nan => .nan
  | .num a, .num b =>
      if b = 0 then (if a = 0 then .nan else if 0 < a then .inf else .negInf)
      else .num (a / b)
  | .num _, .inf => .num 0
  | .num _, .negInf => .num 0
  | .inf, .num b => if 0 ≤ b then .inf else .negInf
  | .negInf, .num b => if 0 ≤ b then .negInf else .inf
  | .inf, .inf => .nan
  | .inf, .negInf => .nan
  | .negInf, .inf => .nan
  | .negInf, .negInf => .nan

/-- Decimal digits of the fractional part of a nonnegative rational,
with fuel bounding the number of emitted digits. -/
def fracDigitsStr : Rat → Nat → String
  | _, 0 => ""
  | q, n + 1 =>
      if q = 0 then ""
      else
        let q10 := q * 10
        let d := q10.floor
        toString d ++ fracDigitsStr (q10 - (d : Rat)) n

/-- Rendering of a finite evaluator number, matching JavaScript's
integer rendering on integers (the case the spec's examples exercise)
and a plain decimal expansion otherwise. -/
def ratToString (q : Rat) : String :=
  if q.den = 1 then toString q.num
  else
    (if q < 0 then "-" else "") ++
      toString (|q|).floor ++ "." ++ fracDigitsStr (|q| - ((|q|).floor : Rat)) 20

def JSNum.render : JSNum → String
  | .nan => "NaN"
  | .inf => "Infinity"
  | .negInf => "-Infinity"
  | .num q => ratToString q

/-! ## Tokenizer and parser for whitelisted arithmetic expressions

Modelled from the spec: "evaluates the remaining arithmetic expression
using a generic dynamic-code evaluator"; the grammar is numbers,
`+ - * /`, parentheses, standard precedence, unary sign. -/

inductive Tok where
  | num (q : Rat)
  | plus
  | minus
  | star
  | slash
  | lparen
  | rparen
deriving DecidableEq, Repr

def takeDigits : List Char → List Char × List Char
  | [] => ([], [])
  | c :: cs =>
      if c.isDigit then
        let (d, r) := takeDigits cs
        (c :: d, r)
      else ([], c :: cs)

def digitsToNat (ds : List Char) : Nat :=
  ds.foldl (fun acc c => acc * 10 + (c.toNat - '0'.toNat)) 0

def numOfDigits (intDs fracDs : List Char) : Rat :=
  (digitsToNat intDs : Rat) + (digitsToNat fracDs : Rat) / ((10 : Rat) ^ fracDs.length)

def tokenizeAux : Nat → List Char → Except String (List Tok)
  | 0, _ => .error "tokenizer fuel exhausted"
  | _, [] => .ok []
  | fuel + 1, c :: cs =>
      if c = ' ' then tokenizeAux fuel cs
      else if c = '+' then (Tok.plus :: ·) <$> tokenizeAux fuel cs
      else if c = '-' then (Tok.minus :: ·) <$> tokenizeAux fuel cs
      else if c = '*' then (Tok.star :: ·) <$> tokenizeAux fuel cs
      else if c = '/' then (Tok.slash :: ·) <$> tokenizeAux fuel cs
      else if c = '(' then (Tok.lparen :: ·) <$> tokenizeAux fuel cs
      else if c = ')' then (Tok.rparen :: ·) <$> tokenizeAux fuel cs
      else if c.isDigit ∨ c = '.' then
        let (ds, r1) := takeDigits (c :: cs)
        match r1 with
        | '.' :: r2 =>
            let (fds, r3) := takeDigits r2
            if ds = [] ∧ fds = [] then .error "invalid number"
            else (Tok.num (numOfDigits ds fds) :: ·) <$> tokenizeAux fuel r3
        | _ => (Tok.num (numOfDigits ds []) :: ·) <$> tokenizeAux fuel r1
      else .error ("unexpected character " ++ String.mk [c])

def tokenize (s : String) : Except String (List Tok) :=
  tokenizeAux (s.length + 1) s.data

mutual

/-- Additive level: terms separated by `+`/`-`. -/
def parseE : Nat → List Tok → Except String (JSNum × List Tok)
  | 0, _ => .error "parse fuel exhausted"
  | fuel + 1, ts => do
      let (v, ts1) ← parseT fuel ts
      parseETail fuel v ts1

def parseETail : Nat → JSNum → List Tok → Except String (JSNum × List Tok)
  | 0, _, _ => .error "parse fuel exhausted"
  | fuel + 1, v, ts =>
      match ts with
      | .plus :: ts1 => do
          let (w, ts2) ← parseT fuel ts1
          parseETail fuel (v.add w) ts2
      | .minus :: ts1 => do
          let (w, ts2) ← parseT fuel ts1
          parseETail fuel (v.sub w) ts2
      | _ => .ok (v, ts)

/-- Multiplicative level: factors separated by `*`/`/`. -/
def parseT : Nat → List Tok → Except String (JSNum × List Tok)
  | 0, _ => .error "parse fuel exhausted"
  | fuel + 1, ts => do
      let (v, ts1) ← parseF fuel ts
      parseTTail fuel v ts1

def parseTTail : Nat → JSNum → List Tok → Except String (JSNum × List Tok)
  | 0, _, _ => .error "parse fuel exhausted"
  | fuel + 1, v, ts =>
      match ts with
      | .star :: ts1 => do
          let (w, ts2) ← parseF fuel ts1
          parseTTail fuel (v.mul w) ts2
      | .slash :: ts1 => do
          let (w, ts2) ← parseF fuel ts1
          parseTTail fuel (v.div w) ts2
      | _ => .ok (v, ts)

/-- Factor: number literal, unary sign, or parenthesised expression. -/
def parseF : Nat → List Tok → Except String (JSNum × List Tok)
  | 0, _ => .error "parse fuel exhausted"
  | fuel + 1, ts =>
      match ts with
      | .num q :: ts1 => .ok (.num q, ts1)
      | .minus :: ts1 => do
          let (v, ts2) ← parseF fuel ts1
          .ok (v.neg, ts2)
      | .plus :: ts1 => parseF fuel ts1
      | .lparen :: ts1 => do
          let (v, ts2) ← parseE fuel ts1
          match ts2 with
          | .rparen :: ts3 => .ok (v, ts3)
          | _ => .error "expected closing parenthesis"
      | _ => .error "unexpected token"

end

/-- Modelled from the spec: the dynamic-code evaluator applied to a
whitelisted arithmetic expression — standard arithmetic evaluation with
`+ - * / ( )` precedence, failing on syntactically invalid input. -/
def evalArith (s : String) : Except String JSNum := do
  let ts ← tokenize s
  let (v, rest) ← parseE (4 * ts.length + 4) ts
  match rest with
  | [] => .ok v
  | _ => .error "unexpected trailing tokens"

/-! ## The calculate whitelist (from the source regex) -/

/-- A character kept by the source's sanitizing regex
`expression.replace(/[^0-9+\-*\x2f.() ]/g, "")`. -/
def allowedChar (c : Char) : Bool :=
  c.isDigit || c = '+' || c = '-' || c = '*' || c = '/' || c = '.' ||
    c = '(' || c = ')' || c = ' '

/-- The source's `expression.replace(/[^0-9+\-*\x2f.() ]/g, "")`:
every character outside the whitelist is removed. -/
def sanitize (e : String) : String :=
  String.mk (e.data.filter allowedChar)

/-! ## Filesystem model

The handlers delegate to node's `fs.promises` (`writeFile`, `readdir`)
after `path.resolve`.  We model the filesystem as a finite association
list from absolute paths (segment lists) to nodes; the root `[]` is
always a directory. -/

inductive Node where
  | file (content : String)
  | dir
deriving DecidableEq, Repr

abbrev FileSystem := List (List String × Node)

def lookupNode (fsys : FileSystem) (p : List String) : Option Node :=
  if p = [] then some .dir
  else (fsys.find? (fun e => decide (e.1 = p))).map (·.2)

def renderPath (p : List String) : String :=
  "/" ++ String.intercalate "/" p

/-- Model of `fs.writeFile(resolvedPath, content, "utf-8")`: overwrites
an existing file, fails when the target is a directory or the parent
directory does not exist. -/
def fsWrite (p : List String) (c : String) (fsys : FileSystem) :
    Except String FileSystem :=
  match lookupNode fsys p with
  | some .dir => .error ("EISDIR: illegal operation on a directory, open " ++ renderPath p)
  | _ =>
      match lookupNode fsys p.dropLast with
      | some .dir => .ok ((p, .file c) :: fsys.filter (fun e => decide (e.1 ≠ p)))
      | _ => .error ("ENOENT: no such file or directory, open " ++ renderPath p)

/-- Immediate children of a directory: entry name and whether
`entry.isDirectory()` holds. -/
def childrenOf (fsys : FileSystem) (p : List String) : List (String × Bool) :=
  fsys.filterMap (fun e =>
    if e.1.dropLast = p ∧ e.1 ≠ [] then
      some (e.1.getLastD "", decide (e.2 = Node.dir))
    else none)

/-- Model of `fs.readdir(resolvedPath, \x7b withFileTypes: true \x7d)`. -/
def fsReaddir (fsys : FileSystem) (p : List String) :
    Except String (List (String × Bool)) :=
  match lookupNode fsys p with
  | some .dir => .ok (childrenOf fsys p)
  | some (.file _) => .error ("ENOTDIR: not a directory, scandir " ++ renderPath p)
  | none => .error ("ENOENT: no such file or directory, scandir " ++ renderPath p)

/-- Normalization step of node's `path.resolve`: empty and `.` segments
are dropped, `..` pops, names push. -/
def normalizeSegs (acc : List String) : List String → List String
  | [] => acc
  | s :: rest =>
      if s = "" ∨ s = "." then normalizeSegs acc rest
      else if s = ".." then normalizeSegs acc.dropLast rest
      else normalizeSegs (acc ++ [s]) rest

/-- Splitting a path string at `/` separators (the char-list recursion
mirrors `String.splitOn "/"`). -/
def splitSlashAux (acc : List Char) : List Char → List String
  | [] => [String.mk acc.reverse]
  | c :: cs =>
      if c = '/' then String.mk acc.reverse :: splitSlashAux [] cs
      else splitSlashAux (c :: acc) cs

def splitSlash (s : String) : List String :=
  splitSlashAux [] s.data

def startsWithSlash (s : String) : Bool :=
  match s.data with
  | c :: _ => c = '/'
  | [] => false

/-- Model of node's `path.resolve(p)`: absolute paths resolve from the
root, relative paths from the current working directory. -/
def resolvePath (cwd : List String) (p : String) : List String :=
  if startsWithSlash p then normalizeSegs [] (splitSlash p)
  else normalizeSegs cwd (splitSlash p)

/-! ## World state for the dispatcher -/

/-- The `process.env` variables the server reads. -/
structure Env where
  solidClientId : Option String
  solidClientSecret : Option String
  solidOidcIssuer : Option String
deriving DecidableEq, Repr

/-- The observable part of the SDK's `session.info`. -/
structure SessionInfo where
  isLoggedIn : Bool
  webId : Option String
deriving DecidableEq, Repr

/-- The session object built by `new Session()` in the `SolidMCPServer`
constructor: unauthenticated, no WebID. -/
def initialSession : SessionInfo :=
  { isLoggedIn := false, webId := none }

/-- Counters for externally observable effects: network requests issued
(`session.login`, `getSolidDataset`) and invocations of the dynamic-code
evaluator (`new Function`). -/
structure Effects where
  networkCalls : Nat
  evalCalls : Nat
deriving DecidableEq, Repr

instance exceptDecEq {ε α : Type} [DecidableEq ε] [DecidableEq α] :
    DecidableEq (Except ε α) := fun x y =>
  match x, y with
  | .ok a, .ok b =>
      if h : a = b then .isTrue (by rw [h]) else .isFalse (by simp [h])
  | .error a, .error b =>
      if h : a = b then .isTrue (by rw [h]) else .isFalse (by simp [h])
  | .ok _, .error _ => .isFalse (by simp)
  | .error _, .ok _ => .isFalse (by simp)

/-- Dispatcher world: environment, session, filesystem and working
directory, plus oracles for the two delegated network operations (the
outcome `session.login` would produce on `session.info`, and the
profile text `fetchWebIdProfile` would assemble from the fetched
dataset). -/
structure World where
  env : Env
  session : SessionInfo
  fsys : FileSystem
  cwd : List String
  loginResult : Except String SessionInfo
  profileResult : Except String String
  effects : Effects
deriving DecidableEq, Repr

def World.bumpNetwork (w : World) : World :=
  { w with effects := { w.effects with networkCalls := w.effects.networkCalls + 1 } }

def World.bumpEval (w : World) : World :=
  { w with effects := { w.effects with evalCalls := w.effects.evalCalls + 1 } }

/-! ## Tool dispatcher (CallToolRequestSchema handler) -/

inductive ContentBlock where
  | text (s : String)
deriving DecidableEq, Repr

structure ToolResponse where
  content : List ContentBlock
  isError : Bool
deriving DecidableEq, Repr

/-- Arguments of a tool call after JSON decoding; each zod schema picks
the fields it needs. -/
structure ToolArgs where
  path : Option String := none
  content : Option String := none
  expression : Option String := none
deriving DecidableEq, Repr

/-- `authenticateWithSolid()`: guard on the two credential variables,
then `session.login(\x7bclientId, clientSecret, oidcIssuer\x7d)` (a network
request whose effect on `session.info` is the `loginResult` oracle),
then the logged-in check.  The catch block only logs and rethrows. -/
def authenticateWithSolid (w : World) : Except (String × World) World :=
  match w.env.solidClientId, w.env.solidClientSecret with
  | some _, some _ =>
      let _oidcIssuer := w.env.solidOidcIssuer.getD "https://login.inrupt.com/"
      let w1 := w.bumpNetwork
      match w.loginResult with
      | .error e => .error (e, w1)
      | .ok info =>
          let w2 := { w1 with session := info }
          if w2.session.isLoggedIn then .ok w2
          else .error ("Authentication failed - session is not logged in", w2)
  | _, _ =>
      .error ("Missing SOLID_CLIENT_ID or SOLID_CLIENT_SECRET environment variables", w)

/-- `fetchWebIdProfile(webId)`: a `getSolidDataset` network fetch; the
profile text assembled from the external dataset is the
`profileResult` oracle; failures are wrapped. -/
def fetchWebIdProfile (_webId : String) (w : World) :
    Except (String × World) (String × World) :=
  let w1 := w.bumpNetwork
  match w.profileResult with
  | .error e => .error ("Failed to fetch WebID profile: " ++ e, w1)
  | .ok s => .ok (s, w1)

/-- The `read_file` case: `ReadFileArgsSchema` is the empty object
schema and accepts any arguments; authenticate when not logged in, then
require a WebID, then fetch the profile. -/
def readFileTool (_args : ToolArgs) (w : World) :
    Except (String × World) (ToolResponse × World) :=
  match (if w.session.isLoggedIn then Except.ok w else authenticateWithSolid w :
         Except (String × World) World) with
  | .error e => .error e
  | .ok w1 =>
      match w1.session.webId with
      | none => .error ("No WebID found in authenticated session", w1)
      | some webId =>
          match fetchWebIdProfile webId w1 with
          | .error e => .error e
          | .ok (profileInfo, w2) =>
              .ok ({ content := [.text profileInfo], isError := false }, w2)

/-- The `write_file` case: zod-parse `path` and `content`, resolve the
path, write. -/
def writeFileTool (args : ToolArgs) (w : World) :
    Except (String × World) (ToolResponse × World) :=
  match args.path, args.content with
  | some path, some content =>
      let resolvedPath := resolvePath w.cwd path
      match fsWrite resolvedPath content w.fsys with
      | .error e => .error (e, w)
      | .ok fsys2 =>
          .ok ({ content := [.text ("Successfully wrote to " ++ path)], isError := false },
               { w with fsys := fsys2 })
  | _, _ => .error ("Invalid write_file arguments", w)

/-- The `list_directory` case: zod-parse `path`, resolve, readdir,
render each entry as a marked directory/file line. -/
def listDirectoryTool (args : ToolArgs) (w : World) :
    Except (String × World) (ToolResponse × World) :=
  match args.path with
  | some path =>
      let resolvedPath := resolvePath w.cwd path
      match fsReaddir w.fsys resolvedPath with
      | .error e => .error (e, w)
      | .ok entries =>
          let formatted := String.intercalate "\n"
            (entries.map (fun e => (if e.2 then "📁" else "📄") ++ " " ++ e.1))
          .ok ({ content := [.text ("Directory: " ++ path ++ "\n\n" ++ formatted)],
                 isError := false }, w)
  | none => .error ("Invalid list_directory arguments", w)

/-- The `calculate` case: zod-parse `expression`, strip-and-compare
whitelist check, then hand the expression to the dynamic-code
evaluator; an evaluator failure is wrapped by the inner catch and
rethrown. -/
def calculateTool (args : ToolArgs) (w : World) :
    Except (String × World) (ToolResponse × World) :=
  match args.expression with
  | some expression =>
      let sanitized := sanitize expression
      if sanitized ≠ expression then
        .error ("Invalid characters in expression. Only numbers and +, -, *, /, (, ) are allowed.", w)
      else
        let w1 := w.bumpEval
        match evalArith sanitized with
        | .error e => .error ("Failed to evaluate expression: " ++ e, w1)
        | .ok result =>
            .ok ({ content := [.text (expression ++ " = " ++ result.render)], isError := false },
                 w1)
  | none => .error ("Invalid calculate arguments", w)

/-- The `switch (name)` body of the CallToolRequestSchema handler,
before the top-level catch. -/
def dispatch (name : String) (args : ToolArgs) (w : World) :
    Except (String × World) (ToolResponse × World) :=
  if name = "read_file" then readFileTool args w
  else if name = "write_file" then writeFileTool args w
  else if name = "list_directory" then listDirectoryTool args w
  else if name = "calculate" then calculateTool args w
  else .error ("Unknown tool: " ++ name, w)

/-- The complete CallToolRequestSchema handler: the `switch` wrapped in
the top-level try/catch that converts any thrown error into an
error-flagged `Error: <message>` text response. -/
def handleCallTool (name : String) (args : ToolArgs) (w : World) :
    ToolResponse × World :=
  match dispatch name args w with
  | .ok r => r
  | .error (m, w') => ({ content := [.text ("Error: " ++ m)], isError := true }, w')

/-! ## Login broker (second draft's run(): http.createServer on port 2233)

The request handler tests the incoming URL with three independent
`req.url?.includes(...)` substring checks (`callback`, `script`,
`start`).  The `callback` branch writes a placeholder body and ends the
response; the `server.close()` call next to it is commented out and the
token exchange is a chain of TODO comments.  The `start` branch serves
a static HTML login page.  Nothing in the handler touches the broker's
`session` field or closes the listener. -/

def listContainsSub (sub : List Char) : List Char → Bool
  | [] => sub.isEmpty
  | c :: cs => sub.isPrefixOf (c :: cs) || listContainsSub sub cs

/-- Model of JavaScript's `url.includes(sub)`. -/
def strIncludes (s sub : String) : Bool :=
  listContainsSub sub.data s.data

/-- The inline HTML page the `start` route serves (braces of the
embedded JavaScript written as escapes). -/
def startPage : String :=
  "\n<html>\n    <head>\n        <script src=\"./script\"></script>\n        <script>\n            console.log(\"inline script\")\n            const \x7b login, getDefaultSession \x7d = SolidAuth;\n            \n            async function startLogin() \x7b\n              if (!getDefaultSession().info.isLoggedIn) \x7b\n                await login(\x7b\n                  oidcIssuer: \"https://login.inrupt.com\",\n                  redirectUrl: new URL(\"/callback\", window.location.href).toString(),\n                  clientName: \"My application\"\n                \x7d);\n              \x7d\n            \x7d\n            startLogin();\n\n        </script>\n    </head>\n    <body>\n    hello world\n    </body>\n</html>\n"

/-- What the node `res` object accumulates over one request. -/
structure HttpResponse where
  status : Option Nat
  contentType : Option String
  body : List String
  ended : Bool
deriving DecidableEq, Repr

/-- Broker-side state: whether the port-2233 listener is open, the
broker's session reference (with a generation counter that a
`new Session()` replacement would increment), and the served SDK
bundle. -/
structure BrokerState where
  listenerOpen : Bool
  sessionGen : Nat
  session : SessionInfo
  authSdkBundle : String
deriving DecidableEq, Repr

def emptyResponse : HttpResponse :=
  { status := none, contentType := none, body := [], ended := false }

/-- The `http.createServer` request handler of the second draft's
`run()`. -/
def handleHttpRequest (url : String) (st : BrokerState) :
    BrokerState × HttpResponse :=
  let resp := emptyResponse
  let resp :=
    if strIncludes url "callback" then
      { resp with body := resp.body ++ ["NOTHING YET"], ended := true }
    else resp
  let resp :=
    if strIncludes url "script" then
      { resp with status := some 200, contentType := some "text/javascript",
                  body := resp.body ++ [st.authSdkBundle], ended := true }
    else resp
  let resp :=
    if strIncludes url "start" then
      { resp with status := some 200, contentType := some "text/html",
                  body := resp.body ++ [startPage], ended := true }
    else resp
  (st, resp)

/-! ## Concrete worlds used by witnesses and counterexamples -/

/-- A world with no credentials configured, a fresh session, an empty
filesystem rooted at `/home`, and unreachable network. -/
def cexWorld : World :=
  { env := { solidClientId := none, solidClientSecret := none, solidOidcIssuer := none },
    session := initialSession,
    fsys := [(["home"], Node.dir)],
    cwd := ["home"],
    loginResult := .error "network unreachable",
    profileResult := .error "network unreachable",
    effects := { networkCalls := 0, evalCalls := 0 } }

/-- A world where only the client id is configured. -/
def cexWorld2 : World :=
  { cexWorld with env := { solidClientId := some "client-7", solidClientSecret := none,
                           solidOidcIssuer := none } }

/-- The broker state right after `run()` binds port 2233: listener
open, constructor-built session, generation 0. -/
def brokerInit : BrokerState :=
  { listenerOpen := true, sessionGen := 0, session := initialSession,
    authSdkBundle := "/* solid-client-authn-browser bundle */" }

/-! ## Helper lemmas -/

theorem sanitize_eq_iff (e : String) :
    sanitize e = e ↔ ∀ c ∈ e.data, allowedChar c = true := by
  unfold sanitize
  rw [String.ext_iff]
  exact List.filter_eq_self

theorem calculate_ok (e : String) (v : JSNum) (w : World)
    (hc : ∀ c ∈ e.data, allowedChar c = true)
    (he : evalArith e = .ok v) :
    handleCallTool "calculate" { expression := some e } w =
      ({ content := [.text (e ++ " = " ++ v.render)], isError := false }, w.bumpEval) := by
  have hs : sanitize e = e := (sanitize_eq_iff e).2 hc
  unfold handleCallTool dispatch calculateTool
  simp [hs, he]

theorem calculate_rejects (e : String) (w : World)
    (hs : sanitize e ≠ e) :
    handleCallTool "calculate" { expression := some e } w =
      ({ content := [.text "Error: Invalid characters in expression. Only numbers and +, -, *, /, (, ) are allowed."],
         isError := true }, w) := by
  unfold handleCallTool dispatch calculateTool
  simp [hs]

theorem readFileTool_ok_single (args : ToolArgs) (w : World) (r : ToolResponse)
    (w' : World) (h : readFileTool args w = .ok (r, w')) :
    ∃ t, r.content = [.text t] := by
  unfold readFileTool at h
  repeat' first
  | split at h
  | simp only [] at h
  all_goals simp_all
  all_goals first
  | exact ⟨_, by rw [← h]⟩
  | exact ⟨_, by rw [← h.1]⟩
  | exact ⟨_, by rw [← h.1.1]⟩

theorem writeFileTool_ok_single (args : ToolArgs) (w : World) (r : ToolResponse)
    (w' : World) (h : writeFileTool args w = .ok (r, w')) :
    ∃ t, r.content = [.text t] := by
  unfold writeFileTool at h
  repeat' first
  | split at h
  | simp only [] at h
  all_goals simp_all
  all_goals first
  | exact ⟨_, by rw [← h]⟩
  | exact ⟨_, by rw [← h.1]⟩
  | exact ⟨_, by rw [← h.1.1]⟩

theorem listDirectoryTool_ok_single (args : ToolArgs) (w : World) (r : ToolResponse)
    (w' : World) (h : listDirectoryTool args w = .ok (r, w')) :
    ∃ t, r.content = [.text t] := by
  unfold listDirectoryTool at h
  repeat' first
  | split at h
  | simp only [] at h
  all_goals simp_all
  all_goals first
  | exact ⟨_, by rw [← h]⟩
  | exact ⟨_, by rw [← h.1]⟩
  | exact ⟨_, by rw [← h.1.1]⟩

theorem calculateTool_ok_single (args : ToolArgs) (w : World) (r : ToolResponse)
    (w' : World) (h : calculateTool args w = .ok (r, w')) :
    ∃ t, r.content = [.text t] := by
  unfold calculateTool at h
  repeat' first
  | split at h
  | simp only [] at h
  all_goals simp_all
  all_goals first
  | exact ⟨_, by rw [← h]⟩
  | exact ⟨_, by rw [← h.1]⟩
  | exact ⟨_, by rw [← h.1.1]⟩

theorem dispatch_ok_single (name : String) (args : ToolArgs) (w : World)
    (r : ToolResponse) (w' : World) (h : dispatch name args w = .ok (r, w')) :
    ∃ t, r.content = [.text t] := by
  unfold dispatch at h
  split_ifs at h
  · exact readFileTool_ok_single args w r w' h
  · exact writeFileTool_ok_single args w r w' h
  · exact listDirectoryTool_ok_single args w r w' h
  · exact calculateTool_ok_single args w r w' h
  all_goals simp at h

/-! ## Claim theorems -/

/-- C2: an expression with any character outside the whitelist
`0-9 + - * / ( ) .` and space makes `calculate` return the error-flagged
"Invalid characters" response with the evaluator never invoked (the
world, including the evaluator-call counter, is unchanged); and the
strip-and-compare test rejects the input if and only if it contains a
disallowed character. -/
theorem claim_C2 (e : String) (w : World) :
    ((∃ c ∈ e.data, allowedChar c = false) →
      handleCallTool "calculate" { expression := some e } w =
        ({ content := [.text "Error: Invalid characters in expression. Only numbers and +, -, *, /, (, ) are allowed."],
           isError := true }, w)) ∧
    (sanitize e ≠ e ↔ ∃ c ∈ e.data, allowedChar c = false) := by
  have hiff : sanitize e ≠ e ↔ ∃ c ∈ e.data, allowedChar c = false := by
    rw [ne_eq, sanitize_eq_iff]
    push_neg
    simp
  exact ⟨fun hex => calculate_rejects e w (hiff.2 hex), hiff⟩

/-- C2 witness: the spec's own example `"2+2; process.exit()"` contains
disallowed characters and yields the error-flagged response with the
world unchanged. -/
theorem claim_C2_witness :
    handleCallTool "calculate" { expression := some "2+2; process.exit()" } cexWorld =
      ({ content := [.text "Error: Invalid characters in expression. Only numbers and +, -, *, /, (, ) are allowed."],
         isError := true }, cexWorld) :=
  (claim_C2 "2+2; process.exit()" cexWorld).1 (by decide)

unseal Rat.add Rat.mul Rat.inv in
/-- C3 counterexample: the string `"("` contains only characters from
the claim's set, yet `calculate` returns an error-flagged response (the
evaluator rejects it), contradicting the claim's promise of a non-error
`"<expr> = <value>"` response for every such string. -/
theorem claim_C3_counterexample :
    (handleCallTool "calculate" { expression := some "(" } cexWorld).1.isError = true := by
  decide

/-- C3 (amended): for every expression string all of whose characters
are in the source whitelist (digits, space, `+ - * / . ( )`) and which
the arithmetic evaluator accepts, `calculate` returns a non-error
response whose single text block is `"<expr> = <value>"` with `<value>`
the standard arithmetic evaluation. -/
theorem claim_C3 (e : String) (v : JSNum) (w : World)
    (hc : ∀ c ∈ e.data, allowedChar c = true)
    (he : evalArith e = .ok v) :
    (handleCallTool "calculate" { expression := some e } w).1 =
      { content := [.text (e ++ " = " ++ v.render)], isError := false } := by
  rw [calculate_ok e v w hc he]

unseal Rat.add Rat.mul Rat.inv in
/-- C3 witness: the spec's example `"2 + 2 * 3"` evaluates to 8 with
standard precedence and yields the non-error text `"2 + 2 * 3 = 8"`. -/
theorem claim_C3_witness :
    evalArith "2 + 2 * 3" = .ok (.num 8) ∧
    (handleCallTool "calculate" { expression := some "2 + 2 * 3" } cexWorld).1 =
      { content := [.text "2 + 2 * 3 = 8"], isError := false } := by
  refine ⟨by decide, ?_⟩
  have h := claim_C3 "2 + 2 * 3" (.num 8) cexWorld (by decide) (by decide)
  rw [h]
  decide

/-- C9: for a whitelisted expression that the evaluator accepts with a
non-finite result, `calculate` does not treat the result specially: the
response is non-error with text `"<expr> = <result>"`, the result
rendered exactly as the evaluator produced it. -/
theorem claim_C9 (e : String) (v : JSNum) (w : World)
    (hc : ∀ c ∈ e.data, allowedChar c = true)
    (he : evalArith e = .ok v)
    (hnf : v.isFinite = false) :
    (handleCallTool "calculate" { expression := some e } w).1 =
      { content := [.text (e ++ " = " ++ v.render)], isError := false } := by
  rw [calculate_ok e v w hc he]

unseal Rat.add Rat.mul Rat.inv in
/-- C9 witness: `"1/0"` evaluates to Infinity and the response is the
non-error text `"1/0 = Infinity"`. -/
theorem claim_C9_witness :
    evalArith "1/0" = .ok .inf ∧ JSNum.isFinite .inf = false ∧
    (handleCallTool "calculate" { expression := some "1/0" } cexWorld).1 =
      { content := [.text "1/0 = Infinity"], isError := false } := by
  refine ⟨by decide, by decide, ?_⟩
  have h := claim_C9 "1/0" .inf cexWorld (by decide) (by decide) (by decide)
  rw [h]
  decide

/-- C6: every tool invocation — any name, any arguments, any world —
produces a response whose content is exactly one text block, and any
error raised inside the switch is caught at the top level and turned
into an error-flagged `Error: <message>` response instead of
propagating. -/
theorem claim_C6 (name : String) (args : ToolArgs) (w : World) :
    (∃ t, (handleCallTool name args w).1.content = [.text t]) ∧
    (∀ m w', dispatch name args w = .error (m, w') →
      (handleCallTool name args w).1 =
        { content := [.text ("Error: " ++ m)], isError := true }) := by
  constructor
  · unfold handleCallTool
    cases hd : dispatch name args w with
    | ok p => exact dispatch_ok_single name args w p.1 p.2 (by rw [hd])
    | error e => exact ⟨_, rfl⟩
  · intro m w' hd
    unfold handleCallTool
    rw [hd]

/-- C7: for every tool name outside the fixed set, the dispatcher
returns the error-flagged response `Error: Unknown tool: <name>` and
leaves the world untouched. -/
theorem claim_C7 (name : String) (args : ToolArgs) (w : World)
    (h1 : name ≠ "read_file") (h2 : name ≠ "write_file")
    (h3 : name ≠ "list_directory") (h4 : name ≠ "calculate") :
    handleCallTool name args w =
      ({ content := [.text ("Error: Unknown tool: " ++ name)], isError := true }, w) := by
  unfold handleCallTool dispatch
  simp [h1, h2, h3, h4]
  rw [← String.append_assoc]
  have hlit : "Error: " ++ "Unknown tool: " = "Error: Unknown tool: " := by decide
  rw [hlit]

/-- C7 witness: the unknown tool name `"foo"` yields exactly
`Error: Unknown tool: foo` with the error flag set. -/
theorem claim_C7_witness :
    handleCallTool "foo" {} cexWorld =
      ({ content := [.text "Error: Unknown tool: foo"], isError := true }, cexWorld) := by
  have h := claim_C7 "foo" {} cexWorld (by decide) (by decide) (by decide) (by decide)
  rw [h]
  decide

theorem readFile_missing_creds (args : ToolArgs) (w : World)
    (hL : w.session.isLoggedIn = false)
    (hcred : w.env.solidClientId = none ∨ w.env.solidClientSecret = none) :
    handleCallTool "read_file" args w =
      ({ content := [.text "Error: Missing SOLID_CLIENT_ID or SOLID_CLIENT_SECRET environment variables"],
         isError := true }, w) := by
  rcases hcred with h | h
  · simp [handleCallTool, dispatch, readFileTool, authenticateWithSolid, hL, h]
  · cases hcid : w.env.solidClientId <;>
      simp [handleCallTool, dispatch, readFileTool, authenticateWithSolid, hL, h, hcid]

theorem readFile_network (args : ToolArgs) (w : World) (cid cs : String)
    (hL : w.session.isLoggedIn = false)
    (h1 : w.env.solidClientId = some cid) (h2 : w.env.solidClientSecret = some cs) :
    w.effects.networkCalls + 1 ≤ ((handleCallTool "read_file" args w).2).effects.networkCalls := by
  unfold handleCallTool dispatch readFileTool authenticateWithSolid fetchWebIdProfile
  simp [hL, h1, h2]
  cases hlr : w.loginResult with
  | error e => simp [World.bumpNetwork]
  | ok info =>
      by_cases hli : info.isLoggedIn
      · simp [hli, World.bumpNetwork]
        cases hwid : info.webId with
        | none => simp
        | some webId => cases hpr : w.profileResult <;> simp [World.bumpNetwork]
      · simp [hli, World.bumpNetwork]

/-- C1 counterexample: with `isLoggedIn` false (and no credentials
configured), `read_file` does not answer with the literal text
`"not authenticated"`; the response is error-flagged with an
authentication error message, refuting the claim at this input. -/
theorem claim_C1_counterexample :
    (handleCallTool "read_file" {} cexWorld).1.content ≠
      [ContentBlock.text "not authenticated"] ∧
    (handleCallTool "read_file" {} cexWorld).1 =
      { content := [.text "Error: Missing SOLID_CLIENT_ID or SOLID_CLIENT_SECRET environment variables"],
        isError := true } := by
  constructor
  · decide
  · decide

/-- C1 (amended): invoking `read_file` while `isLoggedIn` is false does
not return `"not authenticated"`; the dispatcher instead attempts a
client-credentials login: when either credential variable is absent it
returns the error-flagged `Error: Missing SOLID_CLIENT_ID or
SOLID_CLIENT_SECRET environment variables` response with the world
(session, effect counters) untouched, and when both are present it
issues at least one network request (the `session.login` call). -/
theorem claim_C1_amended (args : ToolArgs) (w : World)
    (hL : w.session.isLoggedIn = false) :
    ((w.env.solidClientId = none ∨ w.env.solidClientSecret = none) →
      handleCallTool "read_file" args w =
        ({ content := [.text "Error: Missing SOLID_CLIENT_ID or SOLID_CLIENT_SECRET environment variables"],
           isError := true }, w)) ∧
    (∀ cid cs, w.env.solidClientId = some cid → w.env.solidClientSecret = some cs →
      w.effects.networkCalls + 1 ≤
        ((handleCallTool "read_file" args w).2).effects.networkCalls) :=
  ⟨fun h => readFile_missing_creds args w hL h,
   fun cid cs h1 h2 => readFile_network args w cid cs hL h1 h2⟩

/-- C1 witness: in the credential-less world the amended claim gives
the concrete error response and unchanged world. -/
theorem claim_C1_witness :
    handleCallTool "read_file" {} cexWorld =
      ({ content := [.text "Error: Missing SOLID_CLIENT_ID or SOLID_CLIENT_SECRET environment variables"],
         isError := true }, cexWorld) :=
  (claim_C1_amended {} cexWorld (by decide)).1 (Or.inl (by decide))

/-- C10: with the session not logged in and a credential variable
absent, `read_file` returns the error-flagged `Error: Missing
SOLID_CLIENT_ID or SOLID_CLIENT_SECRET environment variables` response
and the world — session included — is returned unchanged: no login
call and no session mutation happened. -/
theorem claim_C10 (args : ToolArgs) (w : World)
    (hL : w.session.isLoggedIn = false)
    (hcred : w.env.solidClientId = none ∨ w.env.solidClientSecret = none) :
    handleCallTool "read_file" args w =
      ({ content := [.text "Error: Missing SOLID_CLIENT_ID or SOLID_CLIENT_SECRET environment variables"],
         isError := true }, w) :=
  readFile_missing_creds args w hL hcred

/-- C10 witness: a world with a client id but no client secret gets the
missing-credentials error and keeps its session untouched. -/
theorem claim_C10_witness :
    handleCallTool "read_file" {} cexWorld2 =
      ({ content := [.text "Error: Missing SOLID_CLIENT_ID or SOLID_CLIENT_SECRET environment variables"],
         isError := true }, cexWorld2) :=
  claim_C10 {} cexWorld2 (by decide) (Or.inr (by decide))

/-- C4: evaluation of the callback route at a concrete redirect URL.
A browser-visible response body is written and ended, but the listener
is NOT closed — `server.close()` is commented out in the source next to
the `TODO: Close this server` comment — so the bound port is not
released, contradicting the claim's second half. -/
theorem claim_C4_code_eval :
    (handleHttpRequest "/callback?code=abc" brokerInit).2.body = ["NOTHING YET"] ∧
    (handleHttpRequest "/callback?code=abc" brokerInit).2.ended = true ∧
    (handleHttpRequest "/callback?code=abc" brokerInit).1.listenerOpen = true := by
  decide

set_option maxRecDepth 4096 in
/-- C5 counterexample: a request to the start route leaves the broker's
session reference (and its construction-generation counter) exactly as
it was — no fresh Session is constructed and nothing is discarded —
refuting the claim that `start` replaces the session. -/
theorem claim_C5_counterexample :
    (handleHttpRequest "/start" brokerInit).1.session = brokerInit.session ∧
    (handleHttpRequest "/start" brokerInit).1.sessionGen = brokerInit.sessionGen ∧
    startPage ∈ (handleHttpRequest "/start" brokerInit).2.body := by
  decide

/-- C5 (amended): the start route serves the static login HTML page and
does not touch the broker state at all: the session reference is
unchanged (the only `new Session()` of the server is in the
`SolidMCPServer` constructor), and the page is written to the response
body. -/
theorem claim_C5_amended (url : String) (st : BrokerState)
    (h : strIncludes url "start" = true) :
    (handleHttpRequest url st).1 = st ∧
    startPage ∈ (handleHttpRequest url st).2.body := by
  constructor
  · rfl
  · unfold handleHttpRequest
    simp only [h]
    split_ifs <;> simp [emptyResponse]

/-- C5 witness: a concrete start-route request with a query string
leaves the broker state unchanged and serves the login page. -/
theorem claim_C5_witness :
    (handleHttpRequest "/start?attempt=2" brokerInit).1 = brokerInit ∧
    startPage ∈ (handleHttpRequest "/start?attempt=2" brokerInit).2.body :=
  claim_C5_amended "/start?attempt=2" brokerInit (by decide)

/-! ## Filesystem lemmas for the write/list round trip -/

theorem dropLast_ne_self (p : List String) (hp : p ≠ []) : p.dropLast ≠ p := by
  intro h
  have hlen := congrArg List.length h
  rw [List.length_dropLast] at hlen
  have hpos : 0 < p.length := List.length_pos.2 hp
  omega

theorem find?_filter_ne (fsys : FileSystem) (p q : List String) (hq : q ≠ p) :
    (fsys.filter (fun e => decide (e.1 ≠ p))).find? (fun e => decide (e.1 = q)) =
      fsys.find? (fun e => decide (e.1 = q)) := by
  induction fsys with
  | nil => rfl
  | cons a rest ih =>
      rw [List.filter_cons]
      by_cases hap : a.1 = p
      · rw [if_neg (by simp [hap]), ih, List.find?_cons_of_neg]
        simp only [decide_eq_true_eq]
        intro h
        exact hq (by rw [← h, hap])
      · rw [if_pos (by simp [hap])]
        by_cases haq : a.1 = q
        · rw [List.find?_cons_of_pos, List.find?_cons_of_pos] <;> simp [haq]
        · rw [List.find?_cons_of_neg, List.find?_cons_of_neg, ih] <;> simp [haq]

theorem fsWrite_ok_shape (fsys : FileSystem) (p : List String) (c : String)
    (fsys2 : FileSystem) (hw : fsWrite p c fsys = .ok fsys2) :
    fsys2 = (p, Node.file c) :: fsys.filter (fun e => decide (e.1 ≠ p)) ∧
    p ≠ [] ∧ lookupNode fsys p.dropLast = some Node.dir := by
  unfold fsWrite at hw
  split at hw
  · simp at hw
  next hnd =>
    split at hw
    next hpar =>
      injection hw with h
      refine ⟨h.symm, ?_, hpar⟩
      intro hnil
      apply hnd
      rw [hnil]
      simp [lookupNode]
    · simp at hw

theorem childrenOf_write_mem (fsys : FileSystem) (p : List String) (c : String)
    (hp : p ≠ []) :
    (p.getLastD "", false) ∈
      childrenOf ((p, Node.file c) :: fsys.filter (fun e => decide (e.1 ≠ p))) p.dropLast := by
  unfold childrenOf
  rw [List.filterMap_cons]
  have hhead : (if ((p, Node.file c)).1.dropLast = p.dropLast ∧ ((p, Node.file c)).1 ≠ [] then
      some (((p, Node.file c)).1.getLastD "", decide (((p, Node.file c)).2 = Node.dir))
      else none) = some (p.getLastD "", false) := by
    rw [if_pos ⟨rfl, hp⟩]
    simp
  rw [hhead]
  exact List.mem_cons_self _ _

theorem readdir_after_write (fsys fsys2 : FileSystem) (p : List String) (c : String)
    (hw : fsWrite p c fsys = .ok fsys2) :
    ∃ entries, fsReaddir fsys2 p.dropLast = .ok entries ∧
      (p.getLastD "", false) ∈ entries := by
  obtain ⟨hshape, hp, hpar⟩ := fsWrite_ok_shape fsys p c fsys2 hw
  have hlook : lookupNode fsys2 p.dropLast = some Node.dir := by
    rw [hshape]
    unfold lookupNode
    by_cases h0 : p.dropLast = []
    · simp [h0]
    · rw [if_neg h0, List.find?_cons_of_neg,
          find?_filter_ne fsys p p.dropLast (dropLast_ne_self p hp)]
      · unfold lookupNode at hpar
        rw [if_neg h0] at hpar
        exact hpar
      · simp
        exact fun h => dropLast_ne_self p hp h.symm
  refine ⟨childrenOf fsys2 p.dropLast, ?_, ?_⟩
  · unfold fsReaddir
    rw [hlook]
  · rw [hshape]
    exact childrenOf_write_mem fsys p c hp

theorem dispatch_write_eq (args : ToolArgs) (w : World) :
    dispatch "write_file" args w = writeFileTool args w := by
  unfold dispatch
  simp

theorem dispatch_list_eq (args : ToolArgs) (w : World) :
    dispatch "list_directory" args w = listDirectoryTool args w := by
  unfold dispatch
  simp

theorem writeTool_ok_extract (pathArg contentArg : String) (w : World)
    (r1 : ToolResponse) (w1 : World)
    (hw : handleCallTool "write_file" { path := some pathArg, content := some contentArg } w = (r1, w1))
    (hok : r1.isError = false) :
    ∃ fsys2, fsWrite (resolvePath w.cwd pathArg) contentArg w.fsys = .ok fsys2 ∧
      w1 = { w with fsys := fsys2 } := by
  unfold handleCallTool at hw
  rw [dispatch_write_eq] at hw
  unfold writeFileTool at hw
  dsimp only at hw
  split at hw
  next r heq =>
    subst hw
    split at heq
    next e heq2 => simp at heq
    next fsys2 heq2 =>
      injection heq with h
      rw [Prod.mk.injEq] at h
      exact ⟨fsys2, heq2, h.2.symm⟩
  next m w2 heq =>
    rw [Prod.mk.injEq] at hw
    rw [← hw.1] at hok
    simp at hok

theorem listTool_ok_of_readdir (dirArg : String) (w : World)
    (entries : List (String × Bool))
    (hrd : fsReaddir w.fsys (resolvePath w.cwd dirArg) = .ok entries) :
    handleCallTool "list_directory" { path := some dirArg } w =
      ({ content := [.text ("Directory: " ++ dirArg ++ "\n\n" ++
           String.intercalate "\n"
             (entries.map (fun e => (if e.2 then "📁" else "📄") ++ " " ++ e.1)))],
         isError := false }, w) := by
  unfold handleCallTool
  rw [dispatch_list_eq]
  unfold listDirectoryTool
  dsimp only
  rw [hrd]

/-- C8: a successful `write_file` (non-error response) followed by
`list_directory` on any argument resolving to the written file's parent
directory yields a successful readdir whose entries contain the written
file's name, and the rendered non-error listing built from exactly
those entries. -/
theorem claim_C8 (w : World) (pathArg contentArg dirArg : String)
    (r1 : ToolResponse) (w1 : World)
    (hw : handleCallTool "write_file" { path := some pathArg, content := some contentArg } w = (r1, w1))
    (hok : r1.isError = false)
    (hdir : resolvePath w.cwd dirArg = (resolvePath w.cwd pathArg).dropLast) :
    ∃ entries,
      fsReaddir w1.fsys (resolvePath w.cwd dirArg) = .ok entries ∧
      ((resolvePath w.cwd pathArg).getLastD "") ∈ entries.map Prod.fst ∧
      (handleCallTool "list_directory" { path := some dirArg } w1).1.isError = false ∧
      (handleCallTool "list_directory" { path := some dirArg } w1).1.content =
        [.text ("Directory: " ++ dirArg ++ "\n\n" ++
           String.intercalate "\n"
             (entries.map (fun e => (if e.2 then "📁" else "📄") ++ " " ++ e.1)))] := by
  obtain ⟨fsys2, hwr, hw1⟩ := writeTool_ok_extract pathArg contentArg w r1 w1 hw hok
  obtain ⟨entries, hrd, hmem⟩ :=
    readdir_after_write w.fsys fsys2 (resolvePath w.cwd pathArg) contentArg hwr
  have hfs : w1.fsys = fsys2 := by rw [hw1]
  have hcwd : w1.cwd = w.cwd := by rw [hw1]
  have hrd2 : fsReaddir w1.fsys (resolvePath w.cwd dirArg) = .ok entries := by
    rw [hfs, hdir]
    exact hrd
  have hlist := listTool_ok_of_readdir dirArg w1 entries (by rw [hcwd]; exact hrd2)
  refine ⟨entries, hrd2, ?_, ?_, ?_⟩
  · exact List.mem_map_of_mem Prod.fst hmem
  · rw [hlist]
  · rw [hlist]

/-- C8 witness: writing `notes.txt` (cwd `/home`) and listing `/home`
shows `notes.txt` among the entries of a non-error listing. -/
theorem claim_C8_witness :
    ∃ entries,
      fsReaddir (handleCallTool "write_file" { path := some "notes.txt", content := some "hi" } cexWorld).2.fsys
          (resolvePath cexWorld.cwd "/home") = .ok entries ∧
      ((resolvePath cexWorld.cwd "notes.txt").getLastD "") ∈ entries.map Prod.fst ∧
      (handleCallTool "list_directory" { path := some "/home" }
          (handleCallTool "write_file" { path := some "notes.txt", content := some "hi" } cexWorld).2).1.isError = false ∧
      (handleCallTool "list_directory" { path := some "/home" }
          (handleCallTool "write_file" { path := some "notes.txt", content := some "hi" } cexWorld).2).1.content =
        [.text ("Directory: " ++ "/home" ++ "\n\n" ++
           String.intercalate "\n"
             (entries.map (fun e => (if e.2 then "📁" else "📄") ++ " " ++ e.1)))] :=
  claim_C8 cexWorld "notes.txt" "hi" "/home"
    (handleCallTool "write_file" { path := some "notes.txt", content := some "hi" } cexWorld).1
    (handleCallTool "write_file" { path := some "notes.txt", content := some "hi" } cexWorld).2
    rfl (by decide) (by decide)

end SolidMCP
